import Mathlib

/-!
Verification of `src/parser/PdfEngine.py` (resumeio2pdf_download).

The Python module is shallowly embedded: pure functions become Lean
functions, exceptions become `Except PyError`, external effects (the
network, `json.loads`, the OCR/PDF image backend, the clock) become
explicit oracle parameters, and Python `dict`s become association
lists of `String × PyJson`.  Machine-level `float` arithmetic is
modelled with `ℚ`; the claims under study are about exact algebraic
relations (`max`, `*`, `/`) that hold in either interpretation.
-/

set_option autoImplicit false

namespace PdfEngine

/-- A parsed JSON / dynamic Python value, as produced by `json.loads`. -/
inductive PyJson where
  | null
  | bool (b : Bool)
  | num (q : ℚ)
  | str (s : String)
  | arr (xs : List PyJson)
  | obj (fields : List (String × PyJson))
  deriving Repr

/-- The exception taxonomy of the module.  `processingError`,
`networkError` and `documentValidationError` model the classes defined
at `PdfEngine.py:24-36`; the remaining constructors model the builtin
Python exceptions the code can raise (`AttributeError` from calling
`.get`/`.copy` on a non-dict, `KeyError` from `dict.pop`, `TypeError`
from arithmetic or `len()` on an unsupported operand, `ValueError`
from tuple unpacking, `ZeroDivisionError` from `/`). -/
inductive PyError where
  | processingError (msg : String)
  | networkError (msg : String)
  | documentValidationError (msg : String)
  | attributeError (msg : String)
  | keyError (msg : String)
  | typeError (msg : String)
  | valueError (msg : String)
  | zeroDivisionError (msg : String)
  deriving Repr, DecidableEq

/-- First value bound to `key` in an association-list dict (Python
dict keys are unique, so "first" is exact). -/
def lookupField : List (String × PyJson) → String → Option PyJson
  | [], _ => none
  | (k, v) :: rest, key => if k = key then some v else lookupField rest key

/-- Python truthiness (`if not page_data`) of a JSON value. -/
def PyJson.truthy : PyJson → Bool
  | .null => false
  | .bool b => b
  | .num q => decide (q ≠ 0)
  | .str s => decide (s ≠ "")
  | .arr xs => !xs.isEmpty
  | .obj fs => !fs.isEmpty

/-- `v.get(key, default)`: succeeds only when `v` is a dict
(otherwise Python raises `AttributeError`). -/
def pyGetD (v : PyJson) (key : String) (dflt : PyJson) : Except PyError PyJson :=
  match v with
  | .obj fields => .ok ((lookupField fields key).getD dflt)
  | _ => .error (.attributeError ("object has no attribute get: " ++ key))

/-- Python `len(v)`: defined for lists, dicts and strings, a
`TypeError` otherwise. -/
def pyLen : PyJson → Except PyError Nat
  | .arr xs => .ok xs.length
  | .obj fs => .ok fs.length
  | .str s => .ok s.length
  | _ => .error (.typeError "object has no len")

/-- Python `a / b` where `a` is a number and `b` is a JSON value:
numeric (with `True = 1`, `False = 0`) divisors divide, a zero divisor
raises `ZeroDivisionError`, anything else raises `TypeError`. -/
def pyDivByJson (a : ℚ) (b : PyJson) : Except PyError ℚ :=
  match b with
  | .num q =>
      if q = 0 then .error (.zeroDivisionError "division by zero") else .ok (a / q)
  | .bool bb =>
      if bb then .ok (a / 1) else .error (.zeroDivisionError "division by zero")
  | _ => .error (.typeError "unsupported operand type for /")

/-- Python `value * scale_factor` for a JSON `value` and a float
scale: numbers (and bools, which are ints) multiply, everything else
raises `TypeError`. -/
def pyMulScale (v : PyJson) (s : ℚ) : Except PyError ℚ :=
  match v with
  | .num q => .ok (q * s)
  | .bool bb => .ok ((if bb then (1 : ℚ) else 0) * s)
  | _ => .error (.typeError "unsupported operand type for *")

/-! ### Configuration and request descriptor (`PdfEngine.py:63-92`) -/

/-- `ServiceConfiguration` (`PdfEngine.py:63-75`).  The two endpoint
template strings of the dataclass are never overridden anywhere in the
repository; their default values are inlined into the `UrlBuilder`
functions below instead of modelling Python's general `str.format`. -/
structure ServiceConfiguration where
  base_url : String := "https://ssr.resume.tools"
  default_resolution : Int := 3000
  request_timeout : Int := 30
  user_agent : String :=
    "Mozilla/5.0 (Macintosh; Intel Mac OS X 10_15_7) AppleWebKit/537.36 (KHTML, like Gecko) Chrome/136.0.0.0 Safari/537.36"
  deriving Repr, DecidableEq

/-- `SupportedImageFormats` (`PdfEngine.py:17-21`). -/
inductive SupportedImageFormats where
  | jpeg
  | png
  | webp
  deriving Repr, DecidableEq

/-- The `.value` of a format member. -/
def SupportedImageFormats.val : SupportedImageFormats → String
  | .jpeg => "jpeg"
  | .png => "png"
  | .webp => "webp"

/-- `DocumentSpecification` (`PdfEngine.py:78-92`), fields only. -/
structure DocumentSpecification where
  access_token : String
  output_format : SupportedImageFormats := .jpeg
  image_resolution : Int := 3000
  enable_ocr : Bool := true
  preserve_links : Bool := true
  deriving Repr, DecidableEq

/-- Constructing a `DocumentSpecification` runs `__post_init__`
validation (`PdfEngine.py:87-92`). -/
def mkDocumentSpecification (access_token : String)
    (output_format : SupportedImageFormats) (image_resolution : Int)
    (enable_ocr : Bool) (preserve_links : Bool) :
    Except PyError DocumentSpecification :=
  if access_token = "" then
    .error (.documentValidationError "Access token cannot be empty")
  else if image_resolution < 100 then
    .error (.documentValidationError "Image resolution must be at least 100")
  else
    .ok ⟨access_token, output_format, image_resolution, enable_ocr, preserve_links⟩

/-! ### TimestampGenerator (`PdfEngine.py:95-101`) -/

/-- A `datetime.datetime` value as returned by `datetime.utcnow()`. -/
structure PyDateTime where
  year : Nat
  month : Nat
  day : Nat
  hour : Nat
  minute : Nat
  second : Nat
  microsecond : Nat
  deriving Repr, DecidableEq

/-- Zero-padded decimal rendering, as used by `datetime.isoformat`. -/
def padNum (width n : Nat) : String :=
  let s := toString n
  if s.length < width then String.mk (List.replicate (width - s.length) '0') ++ s else s

/-- `datetime.isoformat()`: `YYYY-MM-DDTHH:MM:SS` followed by
`.ffffff` exactly when the microsecond component is nonzero. -/
def isoformat (d : PyDateTime) : String :=
  padNum 4 d.year ++ "-" ++ padNum 2 d.month ++ "-" ++ padNum 2 d.day ++ "T" ++
    padNum 2 d.hour ++ ":" ++ padNum 2 d.minute ++ ":" ++ padNum 2 d.second ++
    (if d.microsecond = 0 then "" else "." ++ padNum 6 d.microsecond)

/-- `TimestampGenerator.get_current_utc_timestamp`
(`PdfEngine.py:98-101`): `datetime.utcnow().isoformat()[:-4] + "Z"`,
with the current wall-clock reading passed in as the oracle `now`. -/
def get_current_utc_timestamp (now : PyDateTime) : String :=
  (isoformat now).dropRight 4 ++ "Z"

/-! ### HttpRequestExecutor (`PdfEngine.py:104-124`) -/

/-- What the transport (`requests.get`) does for one request: either a
`requests.RequestException` or a response carrying a status code, a
text body and a byte body. -/
inductive NetOutcome where
  | transportFailure (msg : String)
  | response (status_code : Nat) (text : String) (content : List Nat)
  deriving Repr, DecidableEq

/-- A `requests.Response`, restricted to the fields the module reads. -/
structure Response where
  status_code : Nat
  text : String
  content : List Nat
  deriving Repr, DecidableEq

/-- Request headers (`{"User-Agent": ...}`). -/
abbrev Headers := List (String × String)

/-- `HttpRequestExecutor.execute_request` (`PdfEngine.py:110-124`):
a transport exception becomes `NetworkError`; a response with
`status_code != 200` raises `NetworkError` (this `NetworkError` is not
a `requests.RequestException`, so it escapes the `except` clause);
otherwise the response is returned. -/
def execute_request (net : String → Headers → NetOutcome) (url : String)
    (headers : Headers) : Except PyError Response :=
  match net url headers with
  | .transportFailure msg => .error (.networkError ("Network request failed: " ++ msg))
  | .response status_code text content =>
      if status_code ≠ 200 then
        .error (.networkError ("HTTP request failed with status " ++
          toString status_code ++ ": " ++ text))
      else
        .ok ⟨status_code, text, content⟩

/-! ### DocumentMetadataProcessor (`PdfEngine.py:127-139`) -/

/-- `DocumentMetadataProcessor.extract_page_info`
(`PdfEngine.py:130-139`).  `parse` is the `json.loads` oracle (`none`
models a `json.JSONDecodeError`, which the code converts to
`DocumentValidationError`).  On a parsed non-dict value,
`parsed_data.get("pages", [])` raises `AttributeError`, which is not a
`JSONDecodeError` and therefore propagates unchanged.  The raw `pages`
value (of any JSON type) is returned when it is truthy. -/
def extract_page_info (parse : String → Option PyJson) (raw_metadata : String) :
    Except PyError PyJson :=
  match parse raw_metadata with
  | none => .error (.documentValidationError "Invalid JSON metadata")
  | some parsed_data =>
      match parsed_data with
      | .obj fields =>
          let page_data := (lookupField fields "pages").getD (.arr [])
          if page_data.truthy then .ok page_data
          else .error (.documentValidationError "No page data found in metadata")
      | _ => .error (.attributeError "object has no attribute get: pages")

/-! ### UrlBuilder (`PdfEngine.py:167-191`) -/

/-- `UrlBuilder.build_metadata_url` (`PdfEngine.py:173-179`) with the
default `metadata_endpoint` template `/meta/{token}?cache={timestamp}`
instantiated. -/
def build_metadata_url (config : ServiceConfiguration) (token timestamp : String) :
    String :=
  config.base_url ++ "/meta/" ++ token ++ "?cache=" ++ timestamp

/-- `UrlBuilder.build_image_url` (`PdfEngine.py:181-191`) with the
default `image_endpoint` template
`/to-image/{token}-{page}.{format}?cache={timestamp}&size={size}`
instantiated. -/
def build_image_url (config : ServiceConfiguration) (token : String)
    (page_number : Nat) (image_format : String) (timestamp : String)
    (resolution : Int) : String :=
  config.base_url ++ "/to-image/" ++ token ++ "-" ++ toString page_number ++
    "." ++ image_format ++ "?cache=" ++ timestamp ++ "&size=" ++ toString resolution

/-! ### LinkAnnotationBuilder (`PdfEngine.py:194-210`) -/

/-- The clickable annotation produced by `AnnotationBuilder.link`:
a rectangle and the target URL value. -/
structure LinkAnnot where
  rect : ℚ × ℚ × ℚ × ℚ
  url : PyJson
  deriving Repr

/-- The dict returned by `create_link_annotation`: the built
annotation plus the scaled `(x, y, width, height)` tuple. -/
structure AnnotResult where
  annot : LinkAnnot
  coordinates : ℚ × ℚ × ℚ × ℚ
  deriving Repr

/-- `dict.pop(key)`: the bound value and the dict with the entry
removed, or `none` (Python: `KeyError`) when the key is absent. -/
def dictPop : List (String × PyJson) → String →
    Option (PyJson × List (String × PyJson))
  | [], _ => none
  | (k, v) :: rest, key =>
      if k = key then some (v, rest)
      else (dictPop rest key).map (fun p => (p.1, (k, v) :: p.2))

/-- `dict.copy()`: a shallow copy; the caller's later mutations of the
copy are invisible through the original binding (in the pure embedding
the value itself is the copy). -/
def copyDict (d : List (String × PyJson)) : List (String × PyJson) := d

/-- The comprehension `{key: value * scale_factor for key, value in
link_data.items()}`: every value is multiplied by the scale, a
non-numeric value raising `TypeError`. -/
def scaleValues : List (String × PyJson) → ℚ →
    Except PyError (List (String × ℚ))
  | [], _ => .ok []
  | (k, v) :: rest, s => do
      let q ← pyMulScale v s
      let tail ← scaleValues rest s
      .ok ((k, q) :: tail)

/-- `LinkAnnotationBuilder.create_link_annotation`
(`PdfEngine.py:197-210`), source name `create_link_annotation` (the
abbreviated Lean name carries no meaning).  `link_data.pop("url")`
mutates the dict argument, so the post-state of that argument is
returned alongside the result: the original dict when `pop` raised
`KeyError`, and the dict without its `url` entry from the moment `pop`
succeeded (even if a later step raises).  The scaled values are
unpacked positionally (`x, y, width, height = scaled_coords.values()`,
insertion order), a `ValueError` being raised unless exactly four
entries remain. -/
def create_link_annot (link_data : List (String × PyJson)) (scale_factor : ℚ) :
    Except PyError AnnotResult × List (String × PyJson) :=
  match dictPop link_data "url" with
  | none => (.error (.keyError "url"), link_data)
  | some (target_url, remaining) =>
      match scaleValues remaining scale_factor with
      | .error e => (.error e, remaining)
      | .ok scaled =>
          match scaled with
          | [(_, x), (_, y), (_, w), (_, h)] =>
              (.ok { annot := { rect := (x, y, x + w, y + h), url := target_url },
                     coordinates := (x, y, w, h) }, remaining)
          | _ => (.error (.valueError "values unpack"), remaining)

/-! ### PdfDocumentAssembler (`PdfEngine.py:241-289`) -/

/-- The media box of a converted single-page PDF
(`current_page.mediabox`), restricted to the two fields read. -/
structure MediaBox where
  height : ℚ
  width : ℚ
  deriving Repr, DecidableEq

/-- The single PDF page obtained from
`PdfReader(io.BytesIO(pdf_page_data)).pages[0]`. -/
structure PdfPage where
  mediabox : MediaBox
  deriving Repr, DecidableEq

/-- One page of the `PdfWriter` output: the page appended by
`add_page` together with the link annotations later attached to that
page index by `add_annotation`. -/
structure AssembledPage where
  page : PdfPage
  annots : List LinkAnnot
  deriving Repr

/-- Image bytes (`io.BytesIO` buffer contents). -/
abbrev Bytes := List Nat

/-- Replace the value bound to `key` when the key is present; a dict
without the key is returned unchanged (the `.get` default was a fresh
object, so mutating it never writes back). -/
def dictSetIfPresent : List (String × PyJson) → String → PyJson →
    List (String × PyJson)
  | [], _, _ => []
  | (k, v) :: rest, key, newV =>
      if k = key then (k, newV) :: rest
      else (k, v) :: dictSetIfPresent rest key newV

/-- The per-link loop of `assemble_document` (`PdfEngine.py:277-284`):
each `link_info` must be a dict (`link_info.copy()` raises
`AttributeError` otherwise); `create_link_annotation` is called on the
copy, so the post-state of the copy is discarded and the second
component — the post-state of the `links` list itself — keeps every
original entry. -/
def processLinks : List PyJson → ℚ →
    Except PyError (List LinkAnnot) × List PyJson
  | [], _ => (.ok [], [])
  | link_info :: rest, page_scale =>
      match link_info with
      | .obj fields =>
          match create_link_annot (copyDict fields) page_scale with
          | (.error e, _) => (.error e, link_info :: rest)
          | (.ok r, _) =>
              match processLinks rest page_scale with
              | (.error e, restState) => (.error e, link_info :: restState)
              | (.ok tail, restState) =>
                  (.ok (r.annot :: tail), link_info :: restState)
      | _ => (.error (.attributeError "object has no attribute copy"),
              link_info :: rest)

/-- Write the post-state of the `links` list back through the alias
`page_links = page_metadata[page_index].get("links", [])`: visible
through `page_metadata` only when the entry is a dict that actually
has a `links` key. -/
def writeBackLinks (entry : PyJson) (newLinks : List PyJson) : PyJson :=
  match entry with
  | .obj fields =>
      match lookupField fields "links" with
      | some _ => .obj (dictSetIfPresent fields "links" (.arr newLinks))
      | none => .obj fields
  | e => e

/-- Lines 274-284 of `PdfEngine.py`: when `page_index` is in range,
fetch that page's `links` (default `[]`) and build one annotation per
link; iterating a non-sequence raises `TypeError`, while iterating a
nonempty string or dict yields non-dict elements whose `.copy()`
raises `AttributeError`.  The second component is the post-state of
`page_metadata`. -/
def pageAnnots (page_metadata : List PyJson) (page_index : Nat) (page_scale : ℚ) :
    Except PyError (List LinkAnnot) × List PyJson :=
  match page_metadata[page_index]? with
  | none => (.ok [], page_metadata)
  | some entry =>
      match pyGetD entry "links" (.arr []) with
      | .error e => (.error e, page_metadata)
      | .ok page_links =>
          match page_links with
          | .arr links =>
              match processLinks links page_scale with
              | (res, linksState) =>
                  (res, page_metadata.set page_index (writeBackLinks entry linksState))
          | .str s =>
              if s = "" then (.ok [], page_metadata)
              else (.error (.attributeError "object has no attribute copy"),
                    page_metadata)
          | .obj fs =>
              if fs.isEmpty then (.ok [], page_metadata)
              else (.error (.attributeError "object has no attribute copy"),
                    page_metadata)
          | _ => (.error (.typeError "object is not iterable"), page_metadata)

/-- Lines 257-259 of `PdfEngine.py`: the reference viewport is read
from the FIRST metadata entry, with `{}` as the viewport default and
`1` as the default for each dimension.  The dimensions keep their raw
JSON type (the divisions in the loop interpret them). -/
def referenceDims (page_metadata : List PyJson) : Except PyError (PyJson × PyJson) := do
  let viewport_info ← pyGetD (page_metadata.headD .null) "viewport" (.obj [])
  let reference_width ← pyGetD viewport_info "width" (.num 1)
  let reference_height ← pyGetD viewport_info "height" (.num 1)
  .ok (reference_width, reference_height)

/-- The `for page_index, image_buffer in enumerate(image_buffers)`
loop of `assemble_document` (`PdfEngine.py:261-284`).  `convert` is
the injected `ImageProcessorProtocol` composed with
`PdfReader(...).pages[0]`.  The per-page scale is
`max(mediabox.height / reference_height, mediabox.width /
reference_width)`.  The second component is the post-state of
`page_metadata`. -/
def assembleLoop (convert : Bytes → Except PyError PdfPage)
    (reference_width reference_height : PyJson) :
    List PyJson → Nat → List Bytes →
    Except PyError (List AssembledPage) × List PyJson
  | metas, _, [] => (.ok [], metas)
  | metas, page_index, image_buffer :: rest =>
      match convert image_buffer with
      | .error e => (.error e, metas)
      | .ok current_page =>
          match pyDivByJson current_page.mediabox.height reference_height with
          | .error e => (.error e, metas)
          | .ok hRatio =>
              match pyDivByJson current_page.mediabox.width reference_width with
              | .error e => (.error e, metas)
              | .ok wRatio =>
                  let page_scale := max hRatio wRatio
                  match pageAnnots metas page_index page_scale with
                  | (.error e, metas') => (.error e, metas')
                  | (.ok annots, metas') =>
                      match assembleLoop convert reference_width reference_height
                          metas' (page_index + 1) rest with
                      | (.error e, metas'') => (.error e, metas'')
                      | (.ok tail, metas'') =>
                          (.ok ({ page := current_page, annots := annots } :: tail),
                           metas'')

/-- `PdfDocumentAssembler.assemble_document` (`PdfEngine.py:249-289`).
The output value is the ordered page list written by `PdfWriter`
(serialized on full success only); the second component is the
post-state of the `page_metadata` argument, successful or not. -/
def assemble_document (convert : Bytes → Except PyError PdfPage)
    (image_buffers : List Bytes) (page_metadata : List PyJson) :
    Except PyError (List AssembledPage) × List PyJson :=
  if image_buffers.isEmpty || page_metadata.isEmpty then
    (.error (.documentValidationError
       "Cannot assemble document: missing image data or metadata"), page_metadata)
  else
    match referenceDims page_metadata with
    | .error e => (.error e, page_metadata)
    | .ok (reference_width, reference_height) =>
        assembleLoop convert reference_width reference_height page_metadata 0
          image_buffers

/-! ### DocumentProcessingOrchestrator (`PdfEngine.py:292-341`) -/

/-- Whether an exception is one of the module's own classes
(`ProcessingError` and its subclasses `NetworkError`,
`DocumentValidationError`). -/
def isProcessingFamily : PyError → Bool
  | .processingError _ => true
  | .networkError _ => true
  | .documentValidationError _ => true
  | _ => false

/-- The `except Exception` clause of `process_document`
(`PdfEngine.py:337-341`): the module's own exceptions are re-raised
unchanged, any other exception is wrapped in a `ProcessingError`. -/
def wrapUnexpected (e : PyError) : PyError :=
  if isProcessingFamily e then e
  else .processingError "Unexpected error during processing"

/-- The page-image fetch loop of `process_document`
(`PdfEngine.py:326-330`): pages are requested as
`range(1, total_pages + 1)` in ascending order, each through
`RemoteDocumentFetcher.fetch_page_image` (`PdfEngine.py:229-238`),
which builds the image URL and returns `io.BytesIO(response.content)`.
The second component is the list of URLs requested, in order, failed
request included. -/
def fetchImagesLoop (net : String → Headers → NetOutcome)
    (config : ServiceConfiguration) (spec : DocumentSpecification)
    (timestamp : String) : Nat → Nat → Except PyError (List Bytes) × List String
  | _, 0 => (.ok [], [])
  | page_number, Nat.succ remaining =>
      let image_url := build_image_url config spec.access_token page_number
        spec.output_format.val timestamp spec.image_resolution
      match execute_request net image_url [("User-Agent", config.user_agent)] with
      | .error e => (.error e, [image_url])
      | .ok response =>
          match fetchImagesLoop net config spec timestamp (page_number + 1) remaining with
          | (.error e, restUrls) => (.error e, image_url :: restUrls)
          | (.ok rest, restUrls) => (.ok (response.content :: rest), image_url :: restUrls)

/-- `DocumentProcessingOrchestrator.process_document`
(`PdfEngine.py:310-341`): one timestamp is generated from the clock
oracle `now`, the metadata is fetched
(`RemoteDocumentFetcher.fetch_document_metadata`, `PdfEngine.py:222-227`)
and parsed, `total_pages = len(page_info)` images are fetched, and the
document is assembled.  When `page_info` is a truthy non-list that
survived `len()` (a string or a dict), the assembler's first metadata
access raises (`"abc"[0].get` → `AttributeError`; `{...}[0]` →
`KeyError`).  Every exception passes the `except` clause of lines
337-341.  The second component is the ordered list of URLs
requested. -/
def process_document (net : String → Headers → NetOutcome)
    (parse : String → Option PyJson) (convert : Bytes → Except PyError PdfPage)
    (now : PyDateTime) (config : ServiceConfiguration)
    (spec : DocumentSpecification) :
    Except PyError (List AssembledPage) × List String :=
  let processing_timestamp := get_current_utc_timestamp now
  let metadata_url := build_metadata_url config spec.access_token processing_timestamp
  let result :=
    match execute_request net metadata_url [("User-Agent", config.user_agent)] with
    | .error e => (Except.error e, [metadata_url])
    | .ok response =>
        match extract_page_info parse response.text with
        | .error e => (Except.error e, [metadata_url])
        | .ok page_info =>
            match pyLen page_info with
            | .error e => (Except.error e, [metadata_url])
            | .ok total_pages =>
                match fetchImagesLoop net config spec processing_timestamp 1
                    total_pages with
                | (.error e, imageUrls) => (Except.error e, metadata_url :: imageUrls)
                | (.ok page_images, imageUrls) =>
                    match page_info with
                    | .arr pages =>
                        ((assemble_document convert page_images pages).1,
                         metadata_url :: imageUrls)
                    | .str _ =>
                        (Except.error (.attributeError "object has no attribute get: viewport"),
                         metadata_url :: imageUrls)
                    | _ =>
                        (Except.error (.keyError "0"), metadata_url :: imageUrls)
  match result with
  | (.error e, urls) => (.error (wrapUnexpected e), urls)
  | ok => ok

/-! ### Canonical well-formed metadata (used in theorem statements)

`encodePage`/`encodeLink` build the JSON shape documented for the
remote metadata endpoint (`pages: [{viewport: {width, height},
links: [{url, x, y, w, h}, ...]}, ...]`). -/

/-- A well-formed link rectangle of the remote metadata. -/
structure LinkT where
  url : String
  x : ℚ
  y : ℚ
  w : ℚ
  h : ℚ
  deriving Repr, DecidableEq

/-- A well-formed page descriptor of the remote metadata. -/
structure PageT where
  vw : ℚ
  vh : ℚ
  links : List LinkT
  deriving Repr, DecidableEq

/-- The JSON dict of a well-formed link, in the documented key
order. -/
def encodeLink (l : LinkT) : PyJson :=
  .obj [("url", .str l.url), ("x", .num l.x), ("y", .num l.y),
        ("w", .num l.w), ("h", .num l.h)]

/-- The JSON dict of a well-formed page descriptor. -/
def encodePage (p : PageT) : PyJson :=
  .obj [("viewport", .obj [("width", .num p.vw), ("height", .num p.vh)]),
        ("links", .arr (p.links.map encodeLink))]

/-- The annotation `create_link_annotation` produces for a
well-formed link under scale `s`. -/
def scaledAnnot (s : ℚ) (l : LinkT) : LinkAnnot :=
  { rect := (l.x * s, l.y * s, l.x * s + l.w * s, l.y * s + l.h * s),
    url := .str l.url }

/-- Whether an `Except` result is a success. -/
def exceptIsOk {α : Type} : Except PyError α → Bool
  | .ok _ => true
  | .error _ => false

/-- Whether an `Except` result is a raised `NetworkError`. -/
def isNetworkError {α : Type} : Except PyError α → Bool
  | .error (.networkError _) => true
  | _ => false

/-- The scale `assemble_document` computes (`PdfEngine.py:267-270`)
for a converted page `pg` under reference viewport `(vw0, vh0)`. -/
def scaleFor (vw0 vh0 : ℚ) (pg : PdfPage) : ℚ :=
  max (pg.mediabox.height / vh0) (pg.mediabox.width / vw0)

/-- The links of the `i`-th page descriptor, `[]` past the end
(mirroring the `if page_index < len(page_metadata)` guard). -/
def linksAt (tps : List PageT) (i : Nat) : List LinkT :=
  ((tps[i]?).map PageT.links).getD []

/-- The page list `assemble_document` produces from well-formed
metadata: `n` pages starting at page index `idx`, page `k` being the
converted page `p k` carrying its descriptor's links scaled by
`scaleFor`. -/
def wfAssembledPages (vw0 vh0 : ℚ) (tps : List PageT) (p : Nat → PdfPage) :
    Nat → Nat → List AssembledPage
  | _, 0 => []
  | idx, Nat.succ n =>
      { page := p idx,
        annots := (linksAt tps idx).map (scaledAnnot (scaleFor vw0 vh0 (p idx))) } ::
      wfAssembledPages vw0 vh0 tps p (idx + 1) n

/-! ### Frame lemmas: `assemble_document` never writes to its
`page_metadata` argument -/

theorem lookupField_dictSetIfPresent_self (d : List (String × PyJson)) (k : String)
    (v : PyJson) (h : lookupField d k = some v) : dictSetIfPresent d k v = d := by
  induction d with
  | nil => simp [lookupField] at h
  | cons kv rest ih =>
      obtain ⟨k1, v1⟩ := kv
      by_cases hk : k1 = k
      · subst hk
        simp [lookupField] at h
        simp [dictSetIfPresent, h]
      · simp [lookupField, hk] at h
        simp [dictSetIfPresent, hk, ih h]

theorem list_set_getElem?_self {α : Type} (l : List α) (i : Nat) (a : α)
    (h : l[i]? = some a) : l.set i a = l := by
  induction l generalizing i with
  | nil => simp at h
  | cons x xs ih =>
      cases i with
      | zero =>
          simp at h
          simp [List.set, h]
      | succ n =>
          simp at h
          simp [List.set, ih n h]

theorem processLinks_state (links : List PyJson) (s : ℚ) :
    (processLinks links s).2 = links := by
  induction links with
  | nil => rfl
  | cons l rest ih =>
      unfold processLinks
      cases l <;> simp
      case obj fields =>
        cases h : create_link_annot (copyDict fields) s with
        | mk res st =>
          cases res <;> simp
          cases h2 : processLinks rest s with
          | mk res2 st2 =>
            cases res2 <;> simp_all

theorem writeBackLinks_self (entry : PyJson) (links : List PyJson)
    (h : pyGetD entry "links" (.arr []) = .ok (.arr links)) :
    writeBackLinks entry links = entry := by
  cases entry <;> simp [pyGetD] at h
  case obj fields =>
    cases hl : lookupField fields "links" with
    | none =>
        simp [writeBackLinks, hl]
    | some v =>
        rw [hl] at h
        simp at h
        subst h
        simp [writeBackLinks, hl,
          lookupField_dictSetIfPresent_self fields "links" _ hl]

theorem pageAnnots_state (metas : List PyJson) (idx : Nat) (s : ℚ) :
    (pageAnnots metas idx s).2 = metas := by
  unfold pageAnnots
  split
  · rfl
  next entry hIdx =>
    split
    · rfl
    next page_links hGet =>
      cases page_links with
      | arr links =>
          show (metas.set idx (writeBackLinks entry (processLinks links s).2)) = metas
          rw [processLinks_state, writeBackLinks_self entry links hGet]
          exact list_set_getElem?_self metas idx entry hIdx
      | str s' =>
          show (if s' = "" then _ else _ : Except PyError (List LinkAnnot) × List PyJson).2 = metas
          split <;> rfl
      | obj fs =>
          show (if fs.isEmpty then _ else _ : Except PyError (List LinkAnnot) × List PyJson).2 = metas
          split <;> rfl
      | null => rfl
      | bool b => rfl
      | num q => rfl

theorem assembleLoop_state (convert : Bytes → Except PyError PdfPage)
    (refW refH : PyJson) :
    ∀ (bufs : List Bytes) (metas : List PyJson) (idx : Nat),
    (assembleLoop convert refW refH metas idx bufs).2 = metas := by
  intro bufs
  induction bufs with
  | nil => intro metas idx; rfl
  | cons b rest ih =>
      intro metas idx
      unfold assembleLoop
      split
      · rfl
      next pg hc =>
        split
        · rfl
        next hRatio hdh =>
          split
          · rfl
          next wRatio hdw =>
            dsimp only
            split
            next e metas' hpA =>
              have hpa := pageAnnots_state metas idx (max hRatio wRatio)
              rw [hpA] at hpa
              exact hpa
            next annots metas' hpA =>
              have hpa := pageAnnots_state metas idx (max hRatio wRatio)
              rw [hpA] at hpa
              split
              next e metas'' hL =>
                have hloop := ih metas' (idx + 1)
                rw [hL] at hloop
                exact hloop.trans hpa
              next tail metas'' hL =>
                have hloop := ih metas' (idx + 1)
                rw [hL] at hloop
                exact hloop.trans hpa

/-- C10: `PdfDocumentAssembler.assemble_document` never mutates the
`page_metadata` structure it is given: every link dictionary is copied
(`link_info.copy()`) before `pop("url")` removes the key and before
scaling, so after assembly — successful or failed — the post-state of
`page_metadata` (second component of the model) equals its value
before the call, every page descriptor and link entry included. -/
theorem C10_no_metadata_mutation (convert : Bytes → Except PyError PdfPage)
    (image_buffers : List Bytes) (page_metadata : List PyJson) :
    (assemble_document convert image_buffers page_metadata).2 = page_metadata := by
  unfold assemble_document
  split
  · rfl
  · cases h : referenceDims page_metadata with
    | error e => simp
    | ok p =>
        cases p with
        | mk refW refH => simp [assembleLoop_state]

/-! ### C1: length validation in `assemble_document` -/

/-- C1 counterexample: `assemble_document` called with 2 image
buffers and 3 page descriptors — the lists differ in length and
neither is empty — succeeds and produces output, instead of failing
with `DocumentValidationError` as the claim states: the code
(`PdfEngine.py:254-255`) only checks emptiness, never compares the
lengths. -/
theorem C1_mismatch_counterexample :
    exceptIsOk (assemble_document (fun _ => .ok ⟨⟨100, 80⟩⟩) [[0], [1]]
      [encodePage ⟨10, 10, [⟨"a", 0, 0, 10, 10⟩]⟩, encodePage ⟨10, 10, []⟩,
       encodePage ⟨10, 10, []⟩]).1 = true := by decide

/-- C1 (amended): `assemble_document` fails with
`DocumentValidationError` — producing no output — whenever either the
image-buffer list or the page-metadata list is empty; a mere length
mismatch between nonempty lists is not rejected (extra images get no
annotations, extra page descriptors are ignored). -/
theorem C1_empty_inputs_fail (convert : Bytes → Except PyError PdfPage)
    (image_buffers : List Bytes) (page_metadata : List PyJson)
    (h : image_buffers = [] ∨ page_metadata = []) :
    (assemble_document convert image_buffers page_metadata).1 =
      .error (.documentValidationError
        "Cannot assemble document: missing image data or metadata") := by
  unfold assemble_document
  rcases h with h | h <;> subst h <;> simp

/-- C1 witness: the amended theorem applied at an empty buffer
list. -/
theorem C1_empty_inputs_fail_witness :
    (assemble_document (fun _ => .ok ⟨⟨1, 1⟩⟩) [] [PyJson.null]).1 =
      .error (.documentValidationError
        "Cannot assemble document: missing image data or metadata") :=
  C1_empty_inputs_fail _ _ _ (Or.inl rfl)

/-! ### C5: error classification in `extract_page_info` -/

/-- C5 counterexample: a payload that is valid JSON but not an object
(here the empty JSON array) is "not parseable into the expected
shape", yet `extract_page_info` raises `AttributeError` (from
`parsed_data.get` on a list, `PdfEngine.py:134`), not
`DocumentValidationError` as the claim requires. -/
theorem C5_nondict_counterexample :
    extract_page_info (fun _ => some (.arr [])) "[]" =
      .error (.attributeError "object has no attribute get: pages") := rfl

/-- C5 (amended): `extract_page_info` fails with
`DocumentValidationError` when the payload is not valid JSON, and when
it is a JSON object whose `pages` entry is absent or falsy (e.g. the
empty list); it succeeds with the raw `pages` value when that value is
truthy; but when the payload is valid JSON whose top level is not an
object, it raises `AttributeError` instead. -/
theorem C5_error_classification (parse : String → Option PyJson) (raw : String) :
    (parse raw = none →
      extract_page_info parse raw =
        .error (.documentValidationError "Invalid JSON metadata")) ∧
    (∀ fields, parse raw = some (.obj fields) →
      ((lookupField fields "pages").getD (.arr [])).truthy = false →
      extract_page_info parse raw =
        .error (.documentValidationError "No page data found in metadata")) ∧
    (∀ fields, parse raw = some (.obj fields) →
      ((lookupField fields "pages").getD (.arr [])).truthy = true →
      extract_page_info parse raw = .ok ((lookupField fields "pages").getD (.arr []))) ∧
    (∀ v, parse raw = some v → (∀ fields, v ≠ .obj fields) →
      extract_page_info parse raw =
        .error (.attributeError "object has no attribute get: pages")) := by
  refine ⟨fun h => ?_, fun fields h hf => ?_, fun fields h ht => ?_, fun v h hv => ?_⟩
  · simp [extract_page_info, h]
  · simp [extract_page_info, h, hf]
  · simp [extract_page_info, h, ht]
  · cases v <;> simp [extract_page_info, h]
    case obj fields => exact absurd rfl (hv fields)

/-- C5 witness: the amended theorem applied to an unparseable payload
and to an object with an empty `pages` list. -/
theorem C5_error_classification_witness :
    extract_page_info (fun _ => none) "notjson" =
      .error (.documentValidationError "Invalid JSON metadata") ∧
    extract_page_info (fun _ => some (.obj [("pages", .arr [])])) "x" =
      .error (.documentValidationError "No page data found in metadata") :=
  ⟨(C5_error_classification (fun _ => none) "notjson").1 rfl,
   (C5_error_classification (fun _ => some (.obj [("pages", .arr [])])) "x").2.1
     [("pages", .arr [])] rfl rfl⟩

/-! ### C6: timestamp format -/

/-- C6: the claim that `get_current_utc_timestamp` always yields a UTC
ISO-8601 timestamp with exactly three fractional digits and a `Z`
suffix is violated by the code: `isoformat()[:-4] + "Z"` keeps only
TWO fractional digits (isoformat carries six, and four characters are
stripped), and when the microsecond component is zero `isoformat`
emits no fractional part at all, so the slice truncates into the
minutes field and the result is not an ISO-8601 timestamp at all. -/
theorem C6_timestamp_truncation :
    get_current_utc_timestamp ⟨2024, 1, 1, 12, 34, 56, 789123⟩ =
      "2024-01-01T12:34:56.78Z" ∧
    get_current_utc_timestamp ⟨2024, 1, 1, 12, 34, 56, 0⟩ =
      "2024-01-01T12:3Z" :=
  ⟨by decide, by decide⟩

/-! ### C7: status handling in `execute_request` -/

/-- C7 counterexample: a remote 201 response is a 2xx status, yet
`execute_request` fails with `NetworkError` — the code
(`PdfEngine.py:118`) accepts exactly status 200, not every 2xx. -/
theorem C7_status201_counterexample :
    execute_request (fun _ _ => .response 201 "created" []) "u" [] =
      .error (.networkError "HTTP request failed with status 201: created") := rfl

/-- C7 (amended): `execute_request` fails with `NetworkError` exactly
when the transport fails or the remote returns a status other than
200, and succeeds returning the response only for status exactly
200. -/
theorem C7_status_classification (net : String → Headers → NetOutcome)
    (url : String) (headers : Headers) :
    (∀ msg, net url headers = .transportFailure msg →
      execute_request net url headers =
        .error (.networkError ("Network request failed: " ++ msg))) ∧
    (∀ s t c, net url headers = .response s t c → s ≠ 200 →
      execute_request net url headers =
        .error (.networkError ("HTTP request failed with status " ++
          toString s ++ ": " ++ t))) ∧
    (∀ t c, net url headers = .response 200 t c →
      execute_request net url headers = .ok ⟨200, t, c⟩) ∧
    (∀ r, execute_request net url headers = .ok r →
      net url headers = .response 200 r.text r.content) := by
  refine ⟨fun msg h => ?_, fun s t c h hs => ?_, fun t c h => ?_, fun r h => ?_⟩
  · simp [execute_request, h]
  · simp [execute_request, h, hs]
  · simp [execute_request, h]
  · cases hn : net url headers with
    | transportFailure msg => simp [execute_request, hn] at h
    | response s t c =>
        rw [execute_request, hn] at h
        by_cases hs : s = 200
        · subst hs
          simp at h
          subst h
          rfl
        · simp [hs] at h

/-- C7 witness: the amended theorem applied at a 404 response and at a
200 response. -/
theorem C7_status_classification_witness :
    execute_request (fun _ _ => .response 404 "nf" []) "u" [] =
      .error (.networkError "HTTP request failed with status 404: nf") ∧
    execute_request (fun _ _ => .response 200 "ok" [1]) "u" [] = .ok ⟨200, "ok", [1]⟩ :=
  ⟨(C7_status_classification (fun _ _ => .response 404 "nf" []) "u" []).2.1
      404 "nf" [] rfl (by decide),
   (C7_status_classification (fun _ _ => .response 200 "ok" [1]) "u" []).2.2.1
      "ok" [1] rfl⟩

/-! ### C8: link scaling -/

/-- C8: `create_link_annotation` scales all four geometric fields of a
link rectangle `(url, x, y, w, h)` by the single scalar `s` and emits
the annotation rectangle `(s*x, s*y, s*x + s*w, s*y + s*h)` with the
URL passed through unchanged; the statement is universal in `w` and
`h`, so a degenerate zero-area rectangle (`w = 0` or `h = 0`) is
handled identically — passed through, never filtered or rejected. -/
theorem C8_link_scaling (u : String) (x y w h s : ℚ) :
    create_link_annot [("url", .str u), ("x", .num x), ("y", .num y),
        ("w", .num w), ("h", .num h)] s =
      (.ok { annot := { rect := (s * x, s * y, s * x + s * w, s * y + s * h),
                        url := .str u },
             coordinates := (s * x, s * y, s * w, s * h) },
       [("x", .num x), ("y", .num y), ("w", .num w), ("h", .num h)]) := by
  have base : create_link_annot [("url", .str u), ("x", .num x), ("y", .num y),
      ("w", .num w), ("h", .num h)] s =
      (.ok { annot := { rect := (x * s, y * s, x * s + w * s, y * s + h * s),
                        url := .str u },
             coordinates := (x * s, y * s, w * s, h * s) },
       [("x", .num x), ("y", .num y), ("w", .num w), ("h", .num h)]) := rfl
  rw [base, mul_comm s x, mul_comm s y, mul_comm s w, mul_comm s h]

/-! ### Evaluation of the assembler on well-formed metadata -/

theorem create_link_annot_encoded (l : LinkT) (s : ℚ) :
    create_link_annot (copyDict [("url", .str l.url), ("x", .num l.x),
      ("y", .num l.y), ("w", .num l.w), ("h", .num l.h)]) s =
    (.ok { annot := scaledAnnot s l,
           coordinates := (l.x * s, l.y * s, l.w * s, l.h * s) },
     [("x", .num l.x), ("y", .num l.y), ("w", .num l.w), ("h", .num l.h)]) := rfl

theorem processLinks_encoded (s : ℚ) (ls : List LinkT) :
    processLinks (ls.map encodeLink) s =
      (.ok (ls.map (scaledAnnot s)), ls.map encodeLink) := by
  induction ls with
  | nil => rfl
  | cons l rest ih =>
      have step : processLinks ((l :: rest).map encodeLink) s =
          (match processLinks (rest.map encodeLink) s with
           | (.error e, restState) => (.error e, encodeLink l :: restState)
           | (.ok tail, restState) =>
               (.ok (scaledAnnot s l :: tail), encodeLink l :: restState)) := rfl
      rw [step, ih]
      rfl

theorem pageAnnots_encoded (tps : List PageT) (idx : Nat) (s : ℚ) :
    pageAnnots (tps.map encodePage) idx s =
      (.ok ((linksAt tps idx).map (scaledAnnot s)), tps.map encodePage) := by
  cases htp : tps[idx]? with
  | none =>
      have hentry : (tps.map encodePage)[idx]? = none := by
        simp [List.getElem?_map, htp]
      have h1 : pageAnnots (tps.map encodePage) idx s = (.ok [], tps.map encodePage) := by
        unfold pageAnnots
        rw [hentry]
      rw [h1]
      simp [linksAt, htp]
  | some tp =>
      have hentry : (tps.map encodePage)[idx]? = some (encodePage tp) := by
        simp [List.getElem?_map, htp]
      have h1 : pageAnnots (tps.map encodePage) idx s =
          ((processLinks (tp.links.map encodeLink) s).1,
           (tps.map encodePage).set idx
             (writeBackLinks (encodePage tp) (processLinks (tp.links.map encodeLink) s).2)) := by
        unfold pageAnnots
        rw [hentry]
        rfl
      rw [h1, processLinks_encoded]
      have hwb : writeBackLinks (encodePage tp) (tp.links.map encodeLink) = encodePage tp := rfl
      rw [hwb, list_set_getElem?_self _ idx _ hentry]
      simp [linksAt, htp]

theorem referenceDims_encoded (tp0 : PageT) (tps : List PageT) :
    referenceDims ((tp0 :: tps).map encodePage) = .ok (.num tp0.vw, .num tp0.vh) := rfl

theorem assembleLoop_encoded (convert : Bytes → Except PyError PdfPage)
    (vw0 vh0 : ℚ) (tps : List PageT) (p : Nat → PdfPage)
    (hvw : vw0 ≠ 0) (hvh : vh0 ≠ 0) :
    ∀ (bufs : List Bytes) (idx : Nat),
    (∀ j (hj : j < bufs.length), convert bufs[j] = .ok (p (idx + j))) →
    assembleLoop convert (.num vw0) (.num vh0) (tps.map encodePage) idx bufs =
      (.ok (wfAssembledPages vw0 vh0 tps p idx bufs.length), tps.map encodePage) := by
  intro bufs
  induction bufs with
  | nil => intro idx hconv; rfl
  | cons b rest ih =>
      intro idx hconv
      have hc : convert b = .ok (p idx) := by
        have h0 := hconv 0 (by simp)
        simpa using h0
      have hdh : pyDivByJson (p idx).mediabox.height (.num vh0) =
          .ok ((p idx).mediabox.height / vh0) := by
        simp [pyDivByJson, hvh]
      have hdw : pyDivByJson (p idx).mediabox.width (.num vw0) =
          .ok ((p idx).mediabox.width / vw0) := by
        simp [pyDivByJson, hvw]
      have hconvRest : ∀ j (hj : j < rest.length),
          convert rest[j] = .ok (p (idx + 1 + j)) := by
        intro j hj
        have h2 : j + 1 < (b :: rest).length := by
          simpa using Nat.succ_lt_succ hj
        have h3 := hconv (j + 1) h2
        rw [List.getElem_cons_succ] at h3
        have h4 : idx + (j + 1) = idx + 1 + j := by omega
        rw [h4] at h3
        exact h3
      have ihr := ih (idx + 1) hconvRest
      simp only [assembleLoop, hc, hdh, hdw, pageAnnots_encoded, ihr,
        List.length_cons, wfAssembledPages, scaleFor]

/-- How `assemble_document` behaves on well-formed metadata with a
successful converter: every page converts, the scale uses the first
descriptor's viewport, and each page carries its own descriptor's
scaled links. -/
theorem assemble_document_encoded (convert : Bytes → Except PyError PdfPage)
    (tp0 : PageT) (tps : List PageT) (p : Nat → PdfPage) (bufs : List Bytes)
    (hbufs : bufs ≠ []) (hvw : tp0.vw ≠ 0) (hvh : tp0.vh ≠ 0)
    (hconv : ∀ j (hj : j < bufs.length), convert bufs[j] = .ok (p j)) :
    assemble_document convert bufs ((tp0 :: tps).map encodePage) =
      (.ok (wfAssembledPages tp0.vw tp0.vh (tp0 :: tps) p 0 bufs.length),
       (tp0 :: tps).map encodePage) := by
  have hne : (bufs.isEmpty || ((tp0 :: tps).map encodePage).isEmpty) = false := by
    cases bufs with
    | nil => exact absurd rfl hbufs
    | cons _ _ => rfl
  unfold assemble_document
  rw [hne]
  simp only [Bool.false_eq_true, if_false]
  rw [referenceDims_encoded]
  exact assembleLoop_encoded convert tp0.vw tp0.vh (tp0 :: tps) p hvw hvh bufs 0
    (fun j hj => by rw [Nat.zero_add]; exact hconv j hj)

theorem wfAssembledPages_length (vw0 vh0 : ℚ) (tps : List PageT) (p : Nat → PdfPage) :
    ∀ (n idx : Nat), (wfAssembledPages vw0 vh0 tps p idx n).length = n := by
  intro n
  induction n with
  | zero => intro idx; rfl
  | succ n ihn => intro idx; simp [wfAssembledPages, ihn (idx + 1)]

theorem wfAssembledPages_getElem? (vw0 vh0 : ℚ) (tps : List PageT) (p : Nat → PdfPage) :
    ∀ (n idx i : Nat), i < n →
    (wfAssembledPages vw0 vh0 tps p idx n)[i]? =
      some { page := p (idx + i),
             annots := (linksAt tps (idx + i)).map
               (scaledAnnot (scaleFor vw0 vh0 (p (idx + i)))) } := by
  intro n
  induction n with
  | zero => intro idx i hi; omega
  | succ n ihn =>
      intro idx i hi
      cases i with
      | zero => simp [wfAssembledPages]
      | succ i =>
          have hrec := ihn (idx + 1) i (by omega)
          have harith : idx + 1 + i = idx + (i + 1) := by omega
          rw [harith] at hrec
          simpa [wfAssembledPages] using hrec

/-! ### C2: per-page scale factor from the first descriptor's
viewport -/

/-- C2: for every page index `i` of a successfully assembled document
over well-formed metadata, the annotations of output page `i` are
exactly page `i`'s own links scaled by
`max(RenderedPage_i.height / referenceViewport.height,
RenderedPage_i.width / referenceViewport.width)`, where the reference
viewport is the viewport `(tp0.vw, tp0.vh)` of the FIRST page
descriptor — not page `i`'s own viewport. -/
theorem C2_scale_uses_first_viewport
    (convert : Bytes → Except PyError PdfPage) (bufs : List Bytes)
    (tp0 : PageT) (tps : List PageT) (p : Nat → PdfPage)
    (out : List AssembledPage) (i : Nat)
    (hvw : tp0.vw ≠ 0) (hvh : tp0.vh ≠ 0)
    (hconv : ∀ j (hj : j < bufs.length), convert bufs[j] = .ok (p j))
    (hok : (assemble_document convert bufs ((tp0 :: tps).map encodePage)).1 = .ok out)
    (hi : i < out.length) :
    out[i]? = some { page := p i,
                     annots := (linksAt (tp0 :: tps) i).map
                       (scaledAnnot (max ((p i).mediabox.height / tp0.vh)
                         ((p i).mediabox.width / tp0.vw))) } := by
  have hbufs : bufs ≠ [] := by
    intro hnil
    rw [hnil] at hok
    simp [assemble_document] at hok
  have hdoc := assemble_document_encoded convert tp0 tps p bufs hbufs hvw hvh hconv
  rw [hdoc] at hok
  simp at hok
  subst hok
  rw [wfAssembledPages_length] at hi
  have hget := wfAssembledPages_getElem? tp0.vw tp0.vh (tp0 :: tps) p bufs.length 0 i hi
  rw [Nat.zero_add] at hget
  simpa [scaleFor] using hget

/-- C2 witness inputs: a converter yielding a 20×20 page against a
10×10 reference viewport, so the scale factor is 2. -/
def convertW2 : Bytes → Except PyError PdfPage := fun _ => .ok ⟨⟨20, 20⟩⟩

/-- C2 witness page descriptor with the link rectangle (0,0,10,10). -/
def tpW2 : PageT := ⟨10, 10, [⟨"u", 0, 0, 10, 10⟩]⟩

/-- C2 witness converted-page oracle (a 20×20 page). -/
def pW2 : Nat → PdfPage := fun _ => ⟨⟨20, 20⟩⟩

/-- C2 witness assembled output: one page whose single annotation
rectangle is (0,0,20,20). -/
def outW2 : List AssembledPage :=
  [{ page := ⟨⟨20, 20⟩⟩,
     annots := [{ rect := ((0 : ℚ), (0 : ℚ), (20 : ℚ), (20 : ℚ)),
                  url := .str "u" }] }]

/-- C2 witness: applying the theorem at a concrete one-page document
whose scale factor is 2: the link (0,0,10,10) maps to the annotation
rectangle (0,0,20,20). -/
theorem C2_scale_witness :
    outW2[0]? = some { page := pW2 0,
                       annots := (linksAt [tpW2] 0).map
                         (scaledAnnot (max ((pW2 0).mediabox.height / tpW2.vh)
                           ((pW2 0).mediabox.width / tpW2.vw))) } := by
  have hok : (assemble_document convertW2 [[]]
      (([tpW2] : List PageT).map encodePage)).1 = .ok outW2 := by
    rw [assemble_document_encoded convertW2 tpW2 [] pW2 [[]]
      (by simp) (by norm_num [tpW2]) (by norm_num [tpW2]) (fun j hj => rfl)]
    simp [outW2, wfAssembledPages, linksAt, scaleFor, scaledAnnot, tpW2, pW2]
    norm_num
  exact C2_scale_uses_first_viewport convertW2 [[]] tpW2 [] pW2 outW2 0
    (by norm_num [tpW2]) (by norm_num [tpW2]) (fun j hj => rfl) hok (by simp [outW2])

/-! ### Behaviour of `execute_request` per transport outcome -/

theorem execute_request_200 (net : String → Headers → NetOutcome) (url : String)
    (headers : Headers) (t : String) (b : List Nat)
    (h : net url headers = .response 200 t b) :
    execute_request net url headers = .ok ⟨200, t, b⟩ := by
  unfold execute_request
  rw [h]
  simp

theorem execute_request_non200 (net : String → Headers → NetOutcome) (url : String)
    (headers : Headers) (s : Nat) (t : String) (b : List Nat)
    (h : net url headers = .response s t b) (hs : s ≠ 200) :
    execute_request net url headers =
      .error (.networkError ("HTTP request failed with status " ++
        toString s ++ ": " ++ t)) := by
  unfold execute_request
  rw [h]
  simp [hs]

theorem execute_request_transport (net : String → Headers → NetOutcome) (url : String)
    (headers : Headers) (m : String) (h : net url headers = .transportFailure m) :
    execute_request net url headers =
      .error (.networkError ("Network request failed: " ++ m)) := by
  unfold execute_request
  rw [h]

/-! ### The page-image fetch loop -/

theorem range_map_shift {α : Type} (g : Nat → α) (n start : Nat) :
    (List.range (n + 1)).map (fun j => g (start + j)) =
      g start :: (List.range n).map (fun j => g (start + 1 + j)) := by
  rw [List.range_succ_eq_map]
  simp only [List.map_cons, List.map_map, Nat.add_zero]
  refine congrArg _ (List.map_congr_left ?_)
  intro j hj
  simp only [Function.comp]
  congr 1
  omega

theorem fetchImagesLoop_ok (net : String → Headers → NetOutcome)
    (config : ServiceConfiguration) (spec : DocumentSpecification) (ts : String)
    (ct : Nat → String) (c : Nat → Bytes) :
    ∀ (n start : Nat),
    (∀ k, start ≤ k → k < start + n →
      net (build_image_url config spec.access_token k spec.output_format.val ts
        spec.image_resolution) [("User-Agent", config.user_agent)] =
        .response 200 (ct k) (c k)) →
    fetchImagesLoop net config spec ts start n =
      (.ok ((List.range n).map (fun j => c (start + j))),
       (List.range n).map (fun j => build_image_url config spec.access_token (start + j)
         spec.output_format.val ts spec.image_resolution)) := by
  intro n
  induction n with
  | zero => intro start h; rfl
  | succ n ihn =>
      intro start h
      have hs := h start (Nat.le_refl _) (by omega)
      have hex := execute_request_200 net _ _ _ _ hs
      have ihr := ihn (start + 1) (fun k hk1 hk2 => h k (by omega) (by omega))
      simp only [fetchImagesLoop, hex, ihr]
      rw [range_map_shift c n start,
        range_map_shift (fun pg => build_image_url config spec.access_token pg
          spec.output_format.val ts spec.image_resolution) n start]

theorem fetchImagesLoop_failure (net : String → Headers → NetOutcome)
    (config : ServiceConfiguration) (spec : DocumentSpecification) (ts : String) :
    ∀ (n start k : Nat), start ≤ k → k < start + n →
    (∀ j, start ≤ j → j < k → ∃ t b,
      net (build_image_url config spec.access_token j spec.output_format.val ts
        spec.image_resolution) [("User-Agent", config.user_agent)] = .response 200 t b) →
    (∀ s t b, net (build_image_url config spec.access_token k spec.output_format.val ts
        spec.image_resolution) [("User-Agent", config.user_agent)] = .response s t b →
      s ≠ 200) →
    isNetworkError (fetchImagesLoop net config spec ts start n).1 = true := by
  intro n
  induction n with
  | zero => intro start k h1 h2 _ _; omega
  | succ n ihn =>
      intro start k hsk hkn hprev hfail
      by_cases hk : start = k
      · subst hk
        cases hn : net (build_image_url config spec.access_token start
            spec.output_format.val ts spec.image_resolution)
            [("User-Agent", config.user_agent)] with
        | transportFailure m =>
            have hex := execute_request_transport net _ _ _ hn
            simp only [fetchImagesLoop, hex]
            rfl
        | response s t b =>
            have hs := hfail s t b hn
            have hex := execute_request_non200 net _ _ _ _ _ hn hs
            simp only [fetchImagesLoop, hex]
            rfl
      · obtain ⟨t, b, hsucc⟩ := hprev start (Nat.le_refl _) (by omega)
        have hex := execute_request_200 net _ _ _ _ hsucc
        have ihr := ihn (start + 1) k (by omega) (by omega)
          (fun j hj1 hj2 => hprev j (by omega) hj2) hfail
        simp only [fetchImagesLoop, hex]
        cases hrec : fetchImagesLoop net config spec ts (start + 1) n with
        | mk res2 urls2 =>
            rw [hrec] at ihr
            cases res2 with
            | error e => simpa using ihr
            | ok v => simp [isNetworkError] at ihr

theorem fetchImagesLoop_urls_mem (net : String → Headers → NetOutcome)
    (config : ServiceConfiguration) (spec : DocumentSpecification) (ts : String) :
    ∀ (n start : Nat) (u : String),
    u ∈ (fetchImagesLoop net config spec ts start n).2 →
    ∃ pg, start ≤ pg ∧ u = build_image_url config spec.access_token pg
      spec.output_format.val ts spec.image_resolution := by
  intro n
  induction n with
  | zero => intro start u h; simp [fetchImagesLoop] at h
  | succ n ihn =>
      intro start u h
      unfold fetchImagesLoop at h
      dsimp only at h
      cases hex : execute_request net (build_image_url config spec.access_token start
          spec.output_format.val ts spec.image_resolution)
          [("User-Agent", config.user_agent)] with
      | error e =>
          rw [hex] at h
          simp at h
          exact ⟨start, Nat.le_refl _, h⟩
      | ok response =>
          rw [hex] at h
          cases hrec : fetchImagesLoop net config spec ts (start + 1) n with
          | mk res2 urls2 =>
              rw [hrec] at h
              have hmem : u = build_image_url config spec.access_token start
                  spec.output_format.val ts spec.image_resolution ∨ u ∈ urls2 := by
                cases res2 <;> simpa using h
              rcases hmem with hmem | hmem
              · exact ⟨start, Nat.le_refl _, hmem⟩
              · obtain ⟨pg, hpg1, hpg2⟩ := ihn (start + 1) u (by rw [hrec]; exact hmem)
                exact ⟨pg, by omega, hpg2⟩

/-! ### C3: page count and page order of `process_document` -/

/-- C3: with a valid `DocumentSpecification`, metadata yielding the
well-formed page descriptors `tp0 :: tps` (`N = (tp0 :: tps).length ≥ 1`),
every remote page image `1..N` fetching with status 200 and every
fetched image converting successfully, `process_document` returns a
document with exactly `N` pages; page `i` of the output is `p i`, the
conversion of `c (i + 1)` — the bytes fetched for remote page `i + 1`
— so output pages follow the metadata order. -/
theorem C3_page_count_and_order (net : String → Headers → NetOutcome)
    (parse : String → Option PyJson) (convert : Bytes → Except PyError PdfPage)
    (now : PyDateTime) (config : ServiceConfiguration) (spec : DocumentSpecification)
    (tp0 : PageT) (tps : List PageT) (p : Nat → PdfPage)
    (ct : Nat → String) (c : Nat → Bytes) (mtext : String) (mc : Bytes)
    (_hvalid : spec.access_token ≠ "" ∧ 100 ≤ spec.image_resolution)
    (hvw : tp0.vw ≠ 0) (hvh : tp0.vh ≠ 0)
    (hmeta : net (build_metadata_url config spec.access_token
        (get_current_utc_timestamp now)) [("User-Agent", config.user_agent)] =
      .response 200 mtext mc)
    (hparse : extract_page_info parse mtext = .ok (.arr ((tp0 :: tps).map encodePage)))
    (hfetch : ∀ k, 1 ≤ k → k ≤ (tp0 :: tps).length →
      net (build_image_url config spec.access_token k spec.output_format.val
        (get_current_utc_timestamp now) spec.image_resolution)
        [("User-Agent", config.user_agent)] = .response 200 (ct k) (c k))
    (hconv : ∀ k, k < (tp0 :: tps).length → convert (c (k + 1)) = .ok (p k)) :
    (process_document net parse convert now config spec).1 =
      .ok (wfAssembledPages tp0.vw tp0.vh (tp0 :: tps) p 0 (tp0 :: tps).length) ∧
    (wfAssembledPages tp0.vw tp0.vh (tp0 :: tps) p 0 (tp0 :: tps).length).length =
      (tp0 :: tps).length ∧
    (∀ i, i < (tp0 :: tps).length →
      (wfAssembledPages tp0.vw tp0.vh (tp0 :: tps) p 0 (tp0 :: tps).length)[i]? =
        some { page := p i,
               annots := (linksAt (tp0 :: tps) i).map
                 (scaledAnnot (scaleFor tp0.vw tp0.vh (p i))) }) := by
  have hexec := execute_request_200 net _ _ _ _ hmeta
  have hlen : pyLen (.arr ((tp0 :: tps).map encodePage)) =
      .ok ((tp0 :: tps).length) := by simp [pyLen]
  have hloop := fetchImagesLoop_ok net config spec (get_current_utc_timestamp now)
    ct c ((tp0 :: tps).length) 1 (fun k hk1 hk2 => hfetch k hk1 (by omega))
  have hblen : ((List.range (tp0 :: tps).length).map (fun j => c (1 + j))).length =
      (tp0 :: tps).length := by simp
  have hconv' : ∀ j (hj : j <
      ((List.range (tp0 :: tps).length).map (fun j => c (1 + j))).length),
      convert ((List.range (tp0 :: tps).length).map (fun j => c (1 + j)))[j] =
        .ok (p j) := by
    intro j hj
    have hj' : j < (tp0 :: tps).length := by simpa using hj
    rw [List.getElem_map, List.getElem_range]
    have hcj := hconv j hj'
    rwa [Nat.add_comm j 1] at hcj
  have hbne : ((List.range (tp0 :: tps).length).map (fun j => c (1 + j))) ≠ [] := by
    simp
  have hdoc := assemble_document_encoded convert tp0 tps p _ hbne hvw hvh hconv'
  refine ⟨?_, wfAssembledPages_length _ _ _ _ _ _, ?_⟩
  · unfold process_document
    simp only [hexec, hparse, hlen, hloop, hdoc, hblen]
  · intro i hi
    have hget := wfAssembledPages_getElem? tp0.vw tp0.vh (tp0 :: tps) p
      (tp0 :: tps).length 0 i hi
    rwa [Nat.zero_add] at hget

/-- C3 witness clock reading. -/
def nowW3 : PyDateTime := ⟨2024, 1, 1, 0, 0, 0, 500000⟩

/-- C3 witness page descriptor. -/
def tpW3 : PageT := ⟨10, 10, [⟨"u", 1, 2, 3, 4⟩]⟩

/-- C3 witness specification. -/
def specW3 : DocumentSpecification := ⟨"tok", .jpeg, 3000, true, true⟩

/-- C3 witness network oracle: the metadata URL answers `"m"`,
everything else answers image bytes `[7]`. -/
def netW3 : String → Headers → NetOutcome := fun url _ =>
  if url = build_metadata_url {} "tok" (get_current_utc_timestamp nowW3) then
    .response 200 "m" []
  else
    .response 200 "" [7]

/-- C3 witness `json.loads` oracle. -/
def parseW3 : String → Option PyJson := fun _ =>
  some (.obj [("pages", .arr (([tpW3] : List PageT).map encodePage))])

/-- C3 witness converter. -/
def convertW3 : Bytes → Except PyError PdfPage := fun _ => .ok ⟨⟨20, 20⟩⟩

/-- C3 witness: the theorem applied at a concrete one-page run. -/
theorem C3_page_count_witness :
    (process_document netW3 parseW3 convertW3 nowW3 {} specW3).1 =
      .ok (wfAssembledPages tpW3.vw tpW3.vh [tpW3] (fun _ => ⟨⟨20, 20⟩⟩) 0
        ([tpW3] : List PageT).length) :=
  (C3_page_count_and_order netW3 parseW3 convertW3 nowW3 {} specW3 tpW3 []
    (fun _ => ⟨⟨20, 20⟩⟩) (fun _ => "") (fun _ => [7]) "m" []
    ⟨by decide, by norm_num [specW3]⟩ (by norm_num [tpW3]) (by norm_num [tpW3])
    (by simp [netW3, specW3])
    (by rfl)
    (fun k hk1 hk2 => by
      have hk : k = 1 := by
        simp at hk2
        omega
      subst hk
      decide)
    (fun k hk => rfl)).1

/-! ### C4: a failing page fetch aborts the whole run -/

/-- C4: when the metadata stage succeeds with `N` pages and some page
`k` (`1 ≤ k ≤ N`) is the first image fetch to fail — the transport
fails or the response status is not 2xx, while every earlier page
fetched with status 200 — `process_document` propagates a
`NetworkError`: its result is an error, so no bytes (and no partial
document built from the pages fetched before the failure) are
returned. -/
theorem C4_fetch_failure_aborts (net : String → Headers → NetOutcome)
    (parse : String → Option PyJson) (convert : Bytes → Except PyError PdfPage)
    (now : PyDateTime) (config : ServiceConfiguration) (spec : DocumentSpecification)
    (page_info : PyJson) (mtext : String) (mc : Bytes) (N k : Nat)
    (hmeta : net (build_metadata_url config spec.access_token
        (get_current_utc_timestamp now)) [("User-Agent", config.user_agent)] =
      .response 200 mtext mc)
    (hparse : extract_page_info parse mtext = .ok page_info)
    (hlen : pyLen page_info = .ok N)
    (hk1 : 1 ≤ k) (hkN : k ≤ N)
    (hprev : ∀ j, 1 ≤ j → j < k → ∃ t b,
      net (build_image_url config spec.access_token j spec.output_format.val
        (get_current_utc_timestamp now) spec.image_resolution)
        [("User-Agent", config.user_agent)] = .response 200 t b)
    (hfail : ∀ s t b,
      net (build_image_url config spec.access_token k spec.output_format.val
        (get_current_utc_timestamp now) spec.image_resolution)
        [("User-Agent", config.user_agent)] = .response s t b →
      ¬(200 ≤ s ∧ s < 300)) :
    isNetworkError (process_document net parse convert now config spec).1 = true := by
  have hexec := execute_request_200 net _ _ _ _ hmeta
  have hfail' : ∀ s t b,
      net (build_image_url config spec.access_token k spec.output_format.val
        (get_current_utc_timestamp now) spec.image_resolution)
        [("User-Agent", config.user_agent)] = .response s t b → s ≠ 200 := by
    intro s t b hr hs
    exact hfail s t b hr (by omega)
  have hloop := fetchImagesLoop_failure net config spec (get_current_utc_timestamp now)
    N 1 k hk1 (by omega) (fun j hj1 hj2 => hprev j hj1 hj2) hfail'
  unfold process_document
  cases hrec : fetchImagesLoop net config spec (get_current_utc_timestamp now) 1 N with
  | mk res urls =>
      rw [hrec] at hloop
      cases res with
      | ok v => simp [isNetworkError] at hloop
      | error e =>
          cases e <;> simp [isNetworkError] at hloop ⊢
          simp only [hexec, hparse, hlen, hrec]
          next m =>
            simp [wrapUnexpected, isProcessingFamily, isNetworkError]

/-- C4 witness clock reading. -/
def nowW4 : PyDateTime := ⟨2024, 2, 2, 3, 4, 5, 600000⟩

/-- C4 witness specification. -/
def specW4 : DocumentSpecification := ⟨"tk", .png, 3000, true, true⟩

/-- C4 witness network oracle: the fetch of page 2 returns status 404,
every other URL returns 200. -/
def netW4 : String → Headers → NetOutcome := fun url _ =>
  if url = build_image_url {} "tk" 2 "png" (get_current_utc_timestamp nowW4) 3000 then
    .response 404 "not found" []
  else
    .response 200 "ok" [9]

/-- C4 witness `json.loads` oracle: two pages. -/
def parseW4 : String → Option PyJson := fun _ =>
  some (.obj [("pages", .arr [.null, .null])])

/-- C4 witness: the theorem applied at a concrete 2-page run whose
second page fetch returns 404. -/
theorem C4_fetch_failure_witness :
    isNetworkError (process_document netW4 parseW4
      (fun _ => .ok ⟨⟨1, 1⟩⟩) nowW4 {} specW4).1 = true :=
  C4_fetch_failure_aborts netW4 parseW4 (fun _ => .ok ⟨⟨1, 1⟩⟩) nowW4 {} specW4
    (.arr [.null, .null]) "ok" [9] 2 2
    (by decide) (by rfl) (by rfl) (by omega) (by omega)
    (fun j hj1 hj2 => ⟨"ok", [9], by
      have hj : j = 1 := by omega
      subst hj
      decide⟩)
    (fun s t b hr => by
      have hs : s = 404 := by
        have : netW4 (build_image_url {} "tk" 2 "png"
            (get_current_utc_timestamp nowW4) 3000) [("User-Agent",
            ({} : ServiceConfiguration).user_agent)] = .response 404 "not found" [] := by
          decide
        rw [show (specW4.access_token) = "tk" from rfl] at hr
        rw [show (specW4.output_format.val) = "png" from rfl] at hr
        rw [show (specW4.image_resolution) = (3000 : Int) from rfl] at hr
        rw [this] at hr
        injection hr with h1 h2 h3
        exact h1.symm
      omega)

/-! ### C9: deterministic URL builders and a single per-run
timestamp -/

/-- The request trace of a run is the metadata URL alone, or the
metadata URL followed by the URLs of one image-fetch loop run with the
same timestamp. -/
theorem process_document_trace (net : String → Headers → NetOutcome)
    (parse : String → Option PyJson) (convert : Bytes → Except PyError PdfPage)
    (now : PyDateTime) (config : ServiceConfiguration)
    (spec : DocumentSpecification) :
    (process_document net parse convert now config spec).2 =
      [build_metadata_url config spec.access_token (get_current_utc_timestamp now)] ∨
    ∃ N, (process_document net parse convert now config spec).2 =
      build_metadata_url config spec.access_token (get_current_utc_timestamp now) ::
        (fetchImagesLoop net config spec (get_current_utc_timestamp now) 1 N).2 := by
  unfold process_document
  dsimp only
  cases hex : execute_request net (build_metadata_url config spec.access_token
      (get_current_utc_timestamp now)) [("User-Agent", config.user_agent)] with
  | error e => left; rfl
  | ok response =>
      cases hpi : extract_page_info parse response.text with
      | error e =>
          left
          simp only [hpi]
      | ok page_info =>
          cases hlen : pyLen page_info with
          | error e =>
              left
              simp only [hpi, hlen]
          | ok N =>
              right
              refine ⟨N, ?_⟩
              cases hf : fetchImagesLoop net config spec
                  (get_current_utc_timestamp now) 1 N with
              | mk res urls =>
                  cases res with
                  | error e => simp only [hpi, hlen, hf]
                  | ok imgs =>
                      cases page_info <;> simp only [hpi, hlen, hf]
                      case arr xs =>
                        cases hassem : (assemble_document convert imgs xs).1 <;>
                          simp [hassem]

/-- C9: the URL builders are deterministic — identical inputs yield
identical URL strings — and within one `process_document` run a single
timestamp `get_current_utc_timestamp now` is generated once and every
requested URL is built with that same value as its cache token: the
trace is the metadata URL for that timestamp followed only by
page-image URLs for that same timestamp. -/
theorem C9_url_determinism_single_timestamp (net : String → Headers → NetOutcome)
    (parse : String → Option PyJson) (convert : Bytes → Except PyError PdfPage)
    (now : PyDateTime) (config : ServiceConfiguration)
    (spec : DocumentSpecification) :
    (∀ token ts, build_metadata_url config token ts = build_metadata_url config token ts) ∧
    (∀ token pg fmt ts res,
      build_image_url config token pg fmt ts res = build_image_url config token pg fmt ts res) ∧
    (∀ u, u ∈ (process_document net parse convert now config spec).2 →
      u = build_metadata_url config spec.access_token (get_current_utc_timestamp now) ∨
      ∃ pg, 1 ≤ pg ∧ u = build_image_url config spec.access_token pg
        spec.output_format.val (get_current_utc_timestamp now) spec.image_resolution) := by
  refine ⟨fun _ _ => rfl, fun _ _ _ _ _ => rfl, fun u hu => ?_⟩
  rcases process_document_trace net parse convert now config spec with htr | ⟨N, htr⟩
  · rw [htr] at hu
    simp at hu
    exact Or.inl hu
  · rw [htr] at hu
    rcases List.mem_cons.mp hu with hu | hu
    · exact Or.inl hu
    · exact Or.inr (fetchImagesLoop_urls_mem net config spec
        (get_current_utc_timestamp now) N 1 u hu)

/-- C9 witness clock reading. -/
def nowW9 : PyDateTime := ⟨2025, 3, 4, 5, 6, 7, 800000⟩

/-- C9 witness: the theorem applied at a run whose metadata request
fails on transport, so the trace is exactly the metadata URL for the
run's single timestamp; that URL is classified by the theorem. -/
theorem C9_url_witness :
    build_metadata_url {} "tok" (get_current_utc_timestamp nowW9) =
      build_metadata_url {} "tok" (get_current_utc_timestamp nowW9) ∨
    ∃ pg, 1 ≤ pg ∧ build_metadata_url {} "tok" (get_current_utc_timestamp nowW9) =
      build_image_url {} "tok" pg
        (DocumentSpecification.mk "tok" .jpeg 3000 true true).output_format.val
        (get_current_utc_timestamp nowW9) 3000 :=
  (C9_url_determinism_single_timestamp (fun _ _ => .transportFailure "down")
    (fun _ => none) (fun _ => .ok ⟨⟨1, 1⟩⟩) nowW9 {} ⟨"tok", .jpeg, 3000, true, true⟩).2.2
    (build_metadata_url {} "tok" (get_current_utc_timestamp nowW9))
    (by rw [show (process_document (fun _ _ => .transportFailure "down")
        (fun _ => none) (fun _ => .ok ⟨⟨1, 1⟩⟩) nowW9 {}
        ⟨"tok", .jpeg, 3000, true, true⟩).2 =
        [build_metadata_url {} "tok" (get_current_utc_timestamp nowW9)] from rfl]
        simp)

end PdfEngine
